import Mathlib

/-!
Shallow embedding of the zain_center property-management bookkeeping logic.

JavaScript strings are embedded as lists of characters (`Str`), JavaScript
numbers as rationals (`ℚ`).  The pure business logic — currency conversion,
invoice generation, the unit-delete cascade, the 24-hour rate-refresh gate
and the persistence gateway's authorization check — is translated from
`src/unnamed/part_000` (the main page component) and `src/src/lib/db.ts`.
-/

namespace ZainCenter

/-- A JavaScript string, embedded as its list of characters. -/
abbrev Str := List Char

/-- `type Currency = "JOD" | "ILS"` -/
inductive Currency where
  | JOD
  | ILS
  deriving DecidableEq, Repr

/-- `type UnitKind = "apartment" | "shop"` -/
inductive UnitKind where
  | apartment
  | shop
  deriving DecidableEq, Repr

/-- `type UtilityType = "water" | "electricity"` -/
inductive UtilityType where
  | water
  | electricity
  deriving DecidableEq, Repr

/-- The billing scope `"monthly" | "yearly"`. -/
inductive Scope where
  | monthly
  | yearly
  deriving DecidableEq, Repr

/-- `type Settings = { baseCurrency: Currency; jodToIlsRate: number }` -/
structure Settings where
  baseCurrency : Currency
  jodToIlsRate : ℚ
  deriving DecidableEq, Repr

/-- `type Unit = { id; name; kind; rentAmount; rentCurrency }` -/
structure Unit where
  id : Str
  name : Str
  kind : UnitKind
  rentAmount : ℚ
  rentCurrency : Currency
  deriving DecidableEq, Repr

/-- `type Tenant = { id; name; phone?; unitId; startDate; active }` -/
structure Tenant where
  id : Str
  name : Str
  phone : Option Str
  unitId : Str
  startDate : Str
  active : Bool
  deriving DecidableEq, Repr

/-- `type UtilityCharge = { id; unitId; period; type; amount; currency }` -/
structure UtilityCharge where
  id : Str
  unitId : Str
  period : Str
  type : UtilityType
  amount : ℚ
  currency : Currency
  deriving DecidableEq, Repr

/-- `type Invoice = { id; unitId; tenantId; period; scope; rentBase; utilitiesBase; totalBase }` -/
structure Invoice where
  id : Str
  unitId : Str
  tenantId : Str
  period : Str
  scope : Scope
  rentBase : ℚ
  utilitiesBase : ℚ
  totalBase : ℚ
  deriving DecidableEq, Repr

/-- `type Payment = { id; tenantId; unitId; date; amount; currency; period?; note? }` -/
structure Payment where
  id : Str
  tenantId : Str
  unitId : Str
  date : Str
  amount : ℚ
  currency : Currency
  period : Option Str
  note : Option Str
  deriving DecidableEq, Repr

/-- `type AppData = { settings; units; tenants; utilities; invoices; payments }` -/
structure AppData where
  settings : Settings
  units : List Unit
  tenants : List Tenant
  utilities : List UtilityCharge
  invoices : List Invoice
  payments : List Payment
  deriving DecidableEq, Repr

/--
```
function convertToBase(amount, from, settings) {
  const rate = settings.jodToIlsRate || 5;
  if (settings.baseCurrency === "JOD") {
    return from === "JOD" ? amount : amount / rate;
  }
  // base ILS
  return from === "ILS" ? amount : amount * rate;
}
```
The JavaScript `||` default fires exactly on a falsy (zero) stored rate.
-/
def convertToBase (amount : ℚ) (fromCurrency : Currency) (settings : Settings) : ℚ :=
  let rate := if settings.jodToIlsRate = 0 then 5 else settings.jodToIlsRate
  if settings.baseCurrency = Currency.JOD then
    if fromCurrency = Currency.JOD then amount else amount / rate
  else
    if fromCurrency = Currency.ILS then amount else amount * rate

/-- Lookup in the `unitsById` map built by
`data.units.forEach((u) => m.set(u.id, u))`: a later `set` with the same key
overwrites an earlier one, so `m.get(i)` returns the last unit in the list
whose id is `i`. -/
def unitsById (units : List Unit) (i : Str) : Option Unit :=
  units.reverse.find? (fun u => u.id == i)

/-- The JavaScript `s.startsWith(pre)`: the first `pre.length` characters of
`s` equal `pre`. -/
def strStartsWith (s pre : Str) : Bool :=
  s.take pre.length == pre

/--
```
function eligibleTenants() {
  const list = data.tenants.filter((t) => t.active);
  const filtered = list.filter((t) => {
    const unit = unitsById.get(t.unitId);
    if (!unit) return false;
    if (scope === "monthly" && unit.kind !== "apartment") return false;
    if (scope === "yearly" && unit.kind !== "shop") return false;
    return true;
  });
  if (tenantFilter) return filtered.filter((t) => t.id === tenantFilter);
  return filtered;
}
```
The empty string is the falsy "no tenant filter" value.
-/
def eligibleTenants (d : AppData) (scope : Scope) (tenantFilter : Str) : List Tenant :=
  let list := d.tenants.filter (fun t => t.active)
  let filtered := list.filter (fun t =>
    match unitsById d.units t.unitId with
    | none => false
    | some unit =>
      if scope = Scope.monthly ∧ unit.kind ≠ UnitKind.apartment then false
      else if scope = Scope.yearly ∧ unit.kind ≠ UnitKind.shop then false
      else true)
  if tenantFilter ≠ [] then filtered.filter (fun t => t.id == tenantFilter)
  else filtered

/-- The `periodFilter` closure of `sumUtilitiesBase`:
```
if (scopeSel === "monthly") return u.period === periodStr;
// yearly: match year
const year = periodStr.slice(0, 4);
return u.period.startsWith(year);
```
-/
def utilityPeriodMatches (scopeSel : Scope) (periodStr : Str) (u : UtilityCharge) : Bool :=
  if scopeSel = Scope.monthly then u.period == periodStr
  else strStartsWith u.period (periodStr.take 4)

/--
```
function sumUtilitiesBase(unitId, periodStr, scopeSel) {
  return data.utilities
    .filter((u) => u.unitId === unitId)
    .filter(periodFilter)
    .reduce((acc, u) => acc + convertToBase(u.amount, u.currency, settings), 0);
}
```
-/
def sumUtilitiesBase (d : AppData) (settings : Settings) (unitId : Str)
    (periodStr : Str) (scopeSel : Scope) : ℚ :=
  ((d.utilities.filter (fun u => u.unitId == unitId)).filter
      (fun u => utilityPeriodMatches scopeSel periodStr u)).foldl
    (fun acc u => acc + convertToBase u.amount u.currency settings) 0

/-- The body of the `tenants.map` inside `generateInvoices`:
```
const unit = unitsById.get(t.unitId)!;
const rentBase = convertToBase(unit.rentAmount, unit.rentCurrency, settings) * (scope === "yearly" ? 1 : 1);
const utilitiesBase = sumUtilitiesBase(unit.id, period, scope);
const totalBase = rentBase + utilitiesBase;
return { id: uid("inv"), unitId: unit.id, tenantId: t.id, period: scopePeriod, scope, rentBase, utilitiesBase, totalBase };
```
The non-null assertion on the unit lookup is embedded as an `Option`
failure; `uid` draws fresh random ids, embedded as an id source `newId`
indexed by position. -/
def invoiceFor (d : AppData) (settings : Settings) (scope : Scope)
    (period : Str) (newId : Nat → Str) (i : Nat) (t : Tenant) : Option Invoice :=
  match unitsById d.units t.unitId with
  | none => none
  | some unit =>
    let scopePeriod := if scope = Scope.monthly then period else period.take 4
    let rentBase := convertToBase unit.rentAmount unit.rentCurrency settings *
      (if scope = Scope.yearly then 1 else 1)
    let utilitiesBase := sumUtilitiesBase d settings unit.id period scope
    let totalBase := rentBase + utilitiesBase
    some { id := newId i, unitId := unit.id, tenantId := t.id,
           period := scopePeriod, scope := scope,
           rentBase := rentBase, utilitiesBase := utilitiesBase,
           totalBase := totalBase }

/-- Maps `f` over the tenants in order, threading the position used for
fresh invoice ids; fails if any unit lookup inside `f` fails. -/
def genLoop (f : Nat → Tenant → Option Invoice) : Nat → List Tenant → Option (List Invoice)
  | _, [] => some []
  | i, t :: ts =>
    match f i t, genLoop f (i + 1) ts with
    | some inv, some rest => some (inv :: rest)
    | _, _ => none

/-- `generateInvoices`: one invoice per eligible tenant, in order. -/
def generateInvoices (d : AppData) (settings : Settings) (scope : Scope)
    (period : Str) (tenantFilter : Str) (newId : Nat → Str) : Option (List Invoice) :=
  genLoop (invoiceFor d settings scope period newId) 0 (eligibleTenants d scope tenantFilter)

/--
```
async function removeUnit(id) {
  setData((d) => ({
    ...d,
    units: d.units.filter((u) => u.id !== id),
    tenants: d.tenants.filter((t) => t.unitId !== id),
    utilities: d.utilities.filter((u) => u.unitId !== id),
    invoices: d.invoices.filter((i) => i.unitId !== id),
    payments: d.payments.filter((p) => p.unitId !== id),
  }));
}
```
-/
def removeUnit (d : AppData) (i : Str) : AppData :=
  { d with
    units := d.units.filter (fun u => u.id != i),
    tenants := d.tenants.filter (fun t => t.unitId != i),
    utilities := d.utilities.filter (fun u => u.unitId != i),
    invoices := d.invoices.filter (fun inv => inv.unitId != i),
    payments := d.payments.filter (fun p => p.unitId != i) }

/-- One day in milliseconds: `24 * 60 * 60 * 1000`. -/
def dayMs : ℤ := 24 * 60 * 60 * 1000

/-- The gate of the daily rate auto-update effect:
```
const last = Number(localStorage.getItem(key) || "0");
const now = Date.now();
if (!last || now - last > 24 * 60 * 60 * 1000) { ... }
```
`last = 0` encodes a missing `zc_rate_last` key (an absent item reads as
`"0"`, and `!last` is the falsiness test on the parsed number). -/
def shouldAutoFetch (last now : ℤ) : Bool :=
  (last == 0) || decide (dayMs < now - last)

/-- One run of the auto-update effect over the persisted timestamp: when the
gate opens, the rate is fetched and `zc_rate_last` is set to `now`; the
returned flag records whether a fetch occurred. -/
def rateStep (last now : ℤ) : Bool × ℤ :=
  if shouldAutoFetch last now then (true, now) else (false, last)

/-- The authorization failure thrown by `getCurrentUserId`
("غير مسجل دخول": not signed in). -/
def authErrorMsg : Str := "غير مسجل دخول".data

/--
```
async function getCurrentUserId(): Promise<string> {
  const { data } = await supabase.auth.getUser();
  if (!data.user?.id) throw new Error("غير مسجل دخول");
  return data.user.id;
}
```
The session is embedded as `Option Str` (`none` = no authenticated user);
a present but empty — falsy — id also fails. -/
def getCurrentUserId (auth : Option Str) : Except Str Str :=
  match auth with
  | none => Except.error authErrorMsg
  | some i => if i = [] then Except.error authErrorMsg else Except.ok i

/-- Payload of `dbUpsertSettings`. -/
structure SettingsRow where
  base_currency : Currency
  jod_to_ils_rate : ℚ
  deriving DecidableEq, Repr

/-- Payload of `dbInsertUnit`. -/
structure UnitRow where
  id : Str
  name : Str
  kind : UnitKind
  rent_amount : ℚ
  rent_currency : Currency
  deriving DecidableEq, Repr

/-- Payload of `dbInsertTenant`. -/
structure TenantRow where
  id : Str
  name : Str
  phone : Option Str
  unit_id : Str
  start_date : Str
  active : Bool
  deriving DecidableEq, Repr

/-- Payload of `dbInsertUtility`. -/
structure UtilityRow where
  id : Str
  unit_id : Str
  period : Str
  type : UtilityType
  amount : ℚ
  currency : Currency
  deriving DecidableEq, Repr

/-- Payload of `dbInsertInvoice`. -/
structure InvoiceRow where
  id : Str
  unit_id : Str
  tenant_id : Str
  period : Str
  scope : Scope
  rent_base : ℚ
  utilities_base : ℚ
  total_base : ℚ
  deriving DecidableEq, Repr

/-- Payload of `dbInsertPayment`. -/
structure PaymentRow where
  id : Str
  tenant_id : Str
  unit_id : Str
  date : Str
  amount : ℚ
  currency : Currency
  period : Option Str
  note : Option Str
  deriving DecidableEq, Repr

/-- The single remote write a gateway operation issues on success, tagged
with the table and the owner id the gateway attaches
(`{ ...payload, owner_id: ownerId }` on inserts,
`.eq("owner_id", ownerId)` on deletes/updates). -/
inductive RemoteWrite where
  | upsertSettings (ownerId : Str) (row : SettingsRow) (updatedAt : Str)
  | insertUnit (ownerId : Str) (row : UnitRow)
  | deleteUnit (ownerId : Str) (id : Str)
  | insertTenant (ownerId : Str) (row : TenantRow)
  | updateTenantActive (ownerId : Str) (id : Str) (active : Bool)
  | deleteTenant (ownerId : Str) (id : Str)
  | insertUtility (ownerId : Str) (row : UtilityRow)
  | deleteUtility (ownerId : Str) (id : Str)
  | insertInvoice (ownerId : Str) (row : InvoiceRow)
  | deleteInvoice (ownerId : Str) (id : Str)
  | insertPayment (ownerId : Str) (row : PaymentRow)
  | deletePayment (ownerId : Str) (id : Str)
  deriving DecidableEq, Repr

/-- `dbUpsertSettings`: resolve the owner id (throwing when no identity is
established), then issue the scoped upsert. `nowIso` is
`new Date().toISOString()`. -/
def dbUpsertSettings (auth : Option Str) (settings : SettingsRow) (nowIso : Str) :
    Except Str RemoteWrite := do
  let ownerId ← getCurrentUserId auth
  pure (RemoteWrite.upsertSettings ownerId settings nowIso)

/-- `dbInsertUnit`. -/
def dbInsertUnit (auth : Option Str) (unit : UnitRow) : Except Str RemoteWrite := do
  let ownerId ← getCurrentUserId auth
  pure (RemoteWrite.insertUnit ownerId unit)

/-- `dbDeleteUnit`. -/
def dbDeleteUnit (auth : Option Str) (id : Str) : Except Str RemoteWrite := do
  let ownerId ← getCurrentUserId auth
  pure (RemoteWrite.deleteUnit ownerId id)

/-- `dbInsertTenant`. -/
def dbInsertTenant (auth : Option Str) (tenant : TenantRow) : Except Str RemoteWrite := do
  let ownerId ← getCurrentUserId auth
  pure (RemoteWrite.insertTenant ownerId tenant)

/-- `dbToggleTenantActive`. -/
def dbToggleTenantActive (auth : Option Str) (id : Str) (active : Bool) :
    Except Str RemoteWrite := do
  let ownerId ← getCurrentUserId auth
  pure (RemoteWrite.updateTenantActive ownerId id active)

/-- `dbDeleteTenant`. -/
def dbDeleteTenant (auth : Option Str) (id : Str) : Except Str RemoteWrite := do
  let ownerId ← getCurrentUserId auth
  pure (RemoteWrite.deleteTenant ownerId id)

/-- `dbInsertUtility`. -/
def dbInsertUtility (auth : Option Str) (util : UtilityRow) : Except Str RemoteWrite := do
  let ownerId ← getCurrentUserId auth
  pure (RemoteWrite.insertUtility ownerId util)

/-- `dbDeleteUtility`. -/
def dbDeleteUtility (auth : Option Str) (id : Str) : Except Str RemoteWrite := do
  let ownerId ← getCurrentUserId auth
  pure (RemoteWrite.deleteUtility ownerId id)

/-- `dbInsertInvoice`. -/
def dbInsertInvoice (auth : Option Str) (inv : InvoiceRow) : Except Str RemoteWrite := do
  let ownerId ← getCurrentUserId auth
  pure (RemoteWrite.insertInvoice ownerId inv)

/-- `dbDeleteInvoice`. -/
def dbDeleteInvoice (auth : Option Str) (id : Str) : Except Str RemoteWrite := do
  let ownerId ← getCurrentUserId auth
  pure (RemoteWrite.deleteInvoice ownerId id)

/-- `dbInsertPayment`. -/
def dbInsertPayment (auth : Option Str) (pay : PaymentRow) : Except Str RemoteWrite := do
  let ownerId ← getCurrentUserId auth
  pure (RemoteWrite.insertPayment ownerId pay)

/-- `dbDeletePayment`. -/
def dbDeletePayment (auth : Option Str) (id : Str) : Except Str RemoteWrite := do
  let ownerId ← getCurrentUserId auth
  pure (RemoteWrite.deletePayment ownerId id)

/-! Concrete sample data used by the witnesses: one apartment unit renting
at 200 JOD, one active tenant on it, and one water charge of 50 JOD for
May 2024. -/

/-- Sample unit: apartment, rent 200 JOD. -/
def c3Unit : Unit :=
  { id := "u1".data, name := "A1".data, kind := UnitKind.apartment,
    rentAmount := 200, rentCurrency := Currency.JOD }

/-- Sample tenant: active, on the sample unit. -/
def c3Tenant : Tenant :=
  { id := "t1".data, name := "T".data, phone := none,
    unitId := "u1".data, startDate := "2024-01-01".data, active := true }

/-- Sample utility: 50 JOD of water for 2024-05 on the sample unit. -/
def c3Utility : UtilityCharge :=
  { id := "c1".data, unitId := "u1".data, period := "2024-05".data,
    type := UtilityType.water, amount := 50, currency := Currency.JOD }

/-- Sample settings: base JOD, rate 5. -/
def c3Settings : Settings := { baseCurrency := Currency.JOD, jodToIlsRate := 5 }

/-- Sample application state. -/
def c3Data : AppData :=
  { settings := c3Settings, units := [c3Unit], tenants := [c3Tenant],
    utilities := [c3Utility], invoices := [], payments := [] }

/-- A concrete id source for the sample generation run. -/
def c3NewId : Nat → Str := fun _ => "inv1".data

/-- The invoice the sample generation run produces. -/
def c3Invoice : Invoice :=
  { id := "inv1".data, unitId := "u1".data, tenantId := "t1".data,
    period := "2024-05".data, scope := Scope.monthly,
    rentBase := 200, utilitiesBase := 50, totalBase := 250 }

/-- Sample utility charge for July 2024, used for the yearly-matching witness. -/
def c4Charge : UtilityCharge :=
  { id := "c2".data, unitId := "u1".data, period := "2024-07".data,
    type := UtilityType.electricity, amount := 30, currency := Currency.JOD }

/-! Theorems. -/

/-- C1: for every amount `x` and rate `r`, `convertToBase` returns `x / rate`
when the base currency is JOD and the source is ILS, and `x * rate` when the
base is ILS and the source is JOD, where `rate` is `r` if non-zero and `5`
otherwise; in particular `convertToBase 100 ILS ⟨JOD, 5⟩ = 20` and
`convertToBase 20 JOD ⟨ILS, 5⟩ = 100`. -/
theorem C1_convertToBase_cross_rate :
    (∀ (x r : ℚ), convertToBase x Currency.ILS ⟨Currency.JOD, r⟩
        = x / (if r = 0 then 5 else r))
    ∧ (∀ (x r : ℚ), convertToBase x Currency.JOD ⟨Currency.ILS, r⟩
        = x * (if r = 0 then 5 else r))
    ∧ convertToBase 100 Currency.ILS ⟨Currency.JOD, 5⟩ = 20
    ∧ convertToBase 20 Currency.JOD ⟨Currency.ILS, 5⟩ = 100 := by
  refine ⟨fun x r => ?_, fun x r => ?_, ?_, ?_⟩ <;>
    simp [convertToBase] <;> norm_num

/-- C2: converting an amount whose source currency equals the base currency
returns the amount unchanged, for every amount, every stored rate and both
base-currency choices. -/
theorem C2_convertToBase_identity_on_base :
    ∀ (x r : ℚ) (c : Currency), convertToBase x c ⟨c, r⟩ = x := by
  intro x r c
  cases c <;> simp [convertToBase]

/-- C7 counterexample: with a single settings value used for both calls the
composition `convertToBase (convertToBase x A s) B s` does not return `x`
when `A ≠ B`: at `x = 100`, `A = ILS`, `B = JOD`, `s = ⟨JOD, 5⟩` it returns
`20`, not `100`. -/
theorem C7_counterexample_same_settings :
    convertToBase (convertToBase 100 Currency.ILS ⟨Currency.JOD, 5⟩)
        Currency.JOD ⟨Currency.JOD, 5⟩ = 20
    ∧ convertToBase (convertToBase 100 Currency.ILS ⟨Currency.JOD, 5⟩)
        Currency.JOD ⟨Currency.JOD, 5⟩ ≠ 100 := by
  constructor <;> · simp [convertToBase]; norm_num

/-- C7 (amended): the round trip holds when the two calls use settings with
opposite base currencies and the same stored rate: for every amount `x`,
rate `r` and distinct currencies `A ≠ B`,
`convertToBase (convertToBase x A ⟨B, r⟩) B ⟨A, r⟩ = x`, exactly over the
rationals. -/
theorem C7_round_trip_opposite_bases :
    ∀ (x r : ℚ) (A B : Currency), A ≠ B →
      convertToBase (convertToBase x A ⟨B, r⟩) B ⟨A, r⟩ = x := by
  intro x r A B hAB
  by_cases h : r = 0 <;>
    cases A <;> cases B <;> simp_all [convertToBase]

/-- Folding `acc + convertToBase u.amount u.currency settings` from an
initial value sums the converted amounts (the `reduce` of
`sumUtilitiesBase`). -/
theorem foldl_add_convert (settings : Settings) :
    ∀ (l : List UtilityCharge) (init : ℚ),
      l.foldl (fun acc u => acc + convertToBase u.amount u.currency settings) init
        = init + (l.map (fun u => convertToBase u.amount u.currency settings)).sum := by
  intro l
  induction l with
  | nil => intro init; simp
  | cons a l ih => intro init; simp [List.foldl_cons, ih]; ring

/-- Every invoice in a successful `genLoop` run comes from some tenant of
the input list. -/
theorem genLoop_mem {f : Nat → Tenant → Option Invoice} :
    ∀ {i : Nat} {ts : List Tenant} {l : List Invoice} {inv : Invoice},
      genLoop f i ts = some l → inv ∈ l → ∃ j t, t ∈ ts ∧ f j t = some inv := by
  intro i ts
  induction ts generalizing i with
  | nil =>
    intro l inv h hm
    simp [genLoop] at h
    subst h
    simp at hm
  | cons t ts ih =>
    intro l inv h hm
    cases hft : f i t with
    | none => simp [genLoop, hft] at h
    | some inv1 =>
      cases hrest : genLoop f (i + 1) ts with
      | none => simp [genLoop, hft, hrest] at h
      | some rest =>
        simp only [genLoop, hft, hrest] at h
        injection h with h'
        subst h'
        rcases List.mem_cons.mp hm with h1 | h1
        · exact ⟨i, t, List.mem_cons_self _ _, by rw [hft, h1]⟩
        · obtain ⟨j, t', ht', hft'⟩ := ih hrest h1
          exact ⟨j, t', List.mem_cons_of_mem _ ht', hft'⟩

/-- `genLoop` succeeds when the body succeeds on every tenant of the list. -/
theorem genLoop_isSome {f : Nat → Tenant → Option Invoice} :
    ∀ {ts : List Tenant} {i : Nat}, (∀ j t, t ∈ ts → (f j t).isSome = true) →
      (genLoop f i ts).isSome = true := by
  intro ts
  induction ts with
  | nil => intro i h; simp [genLoop]
  | cons t ts ih =>
    intro i h
    have h1 := h i t (List.mem_cons_self _ _)
    cases hft : f i t with
    | none => rw [hft] at h1; simp at h1
    | some inv =>
      have h2 := ih (i := i + 1) (fun j t' ht' => h j t' (List.mem_cons_of_mem _ ht'))
      cases hrest : genLoop f (i + 1) ts with
      | none => rw [hrest] at h2; simp at h2
      | some rest => simp [genLoop, hft, hrest]

/-- C3: in a state with exactly one active tenant on an apartment renting at
200 JOD and one matching water charge of 50 JOD for the requested month
2024-05, with base currency JOD, monthly scope and no tenant filter, invoice
generation produces exactly one invoice, with `rentBase = 200`,
`utilitiesBase = 50` and `totalBase = 250`, whatever ids are drawn. -/
theorem C3_monthly_generation_concrete :
    ∀ (newId : Nat → Str),
      generateInvoices c3Data c3Settings Scope.monthly ("2024-05".data) [] newId
        = some [{ id := newId 0, unitId := "u1".data, tenantId := "t1".data,
                  period := "2024-05".data, scope := Scope.monthly,
                  rentBase := 200, utilitiesBase := 50, totalBase := 250 }] := by
  intro newId
  simp [generateInvoices, eligibleTenants, invoiceFor, genLoop, unitsById,
    sumUtilitiesBase, utilityPeriodMatches, strStartsWith, convertToBase,
    c3Data, c3Settings, c3Unit, c3Tenant, c3Utility]
  norm_num

/-- C4: a utility charge contributes under monthly scope iff its period
equals the requested period exactly, and under yearly scope iff its period
starts with the requested period's leading 4-character year (equivalently,
for 4-character-or-longer periods, iff the two leading years agree); hence a
yearly run matches a charge of every month of the requested year and of no
other year, and `sumUtilitiesBase` is the sum of the matching charges of the
unit, each converted to base currency. -/
theorem C4_utility_period_matching :
    (∀ (p : Str) (u : UtilityCharge),
        utilityPeriodMatches Scope.monthly p u = true ↔ u.period = p)
    ∧ (∀ (p : Str) (u : UtilityCharge), 4 ≤ p.length → 4 ≤ u.period.length →
        (utilityPeriodMatches Scope.yearly p u = true ↔ u.period.take 4 = p.take 4))
    ∧ (∀ (u : UtilityCharge) (y rest tail : Str), y.length = 4 →
        u.period = y ++ tail →
        utilityPeriodMatches Scope.yearly (y ++ rest) u = true)
    ∧ (∀ (u : UtilityCharge) (y y' rest tail : Str), y.length = 4 → y'.length = 4 →
        y ≠ y' → u.period = y' ++ tail →
        utilityPeriodMatches Scope.yearly (y ++ rest) u = false)
    ∧ (∀ (d : AppData) (settings : Settings) (unitId periodStr : Str) (scopeSel : Scope),
        sumUtilitiesBase d settings unitId periodStr scopeSel
          = (((d.utilities.filter (fun u => u.unitId == unitId)).filter
                (fun u => utilityPeriodMatches scopeSel periodStr u)).map
              (fun u => convertToBase u.amount u.currency settings)).sum) := by
  refine ⟨?_, ?_, ?_, ?_, ?_⟩
  · intro p u
    simp [utilityPeriodMatches]
  · intro p u hp hu
    have hlen : (p.take 4).length = 4 := by
      rw [List.length_take]; omega
    simp [utilityPeriodMatches, strStartsWith, hlen]
  · intro u y rest tail hy hu
    have h1 : (y ++ rest).take 4 = y := by rw [← hy, List.take_left]
    have h2 : (y ++ tail).take y.length = y := List.take_left _ _
    simp [utilityPeriodMatches, strStartsWith, hu, h1, hy, h2]
  · intro u y y' rest tail hy hy' hne hu
    have h1 : (y ++ rest).take 4 = y := by rw [← hy, List.take_left]
    have h2 : (y' ++ tail).take 4 = y' := by rw [← hy', List.take_left]
    simp [utilityPeriodMatches, strStartsWith, hu, h1, hy, h2]
    exact fun h => hne h.symm
  · intro d settings unitId periodStr scopeSel
    simp [sumUtilitiesBase, foldl_add_convert]

/-- Witness for C4: the July 2024 charge matches a yearly run requested for
2024-01, because its period starts with the year "2024". -/
theorem C4_utility_period_matching_witness :
    utilityPeriodMatches Scope.yearly ("2024".data ++ "-01".data) c4Charge = true :=
  C4_utility_period_matching.2.2.1 c4Charge ("2024".data) ("-01".data) ("-07".data)
    (by decide) (by decide)

/-- C5: every invoice a successful generation run produces satisfies
`totalBase = rentBase + utilitiesBase`, and its `rentBase` is the unit's
rent amount converted to base currency — a formula in which the scope does
not occur, so no proration for yearly versus monthly is performed. -/
theorem C5_invoice_total_and_rentBase :
    ∀ (d : AppData) (settings : Settings) (scope : Scope) (period tenantFilter : Str)
      (newId : Nat → Str) (l : List Invoice) (inv : Invoice),
      generateInvoices d settings scope period tenantFilter newId = some l →
      inv ∈ l →
      inv.totalBase = inv.rentBase + inv.utilitiesBase
      ∧ ∃ u : Unit, unitsById d.units inv.unitId = some u
          ∧ inv.rentBase = convertToBase u.rentAmount u.rentCurrency settings
          ∧ inv.utilitiesBase = sumUtilitiesBase d settings u.id period scope := by
  intro d settings scope period tf newId l inv hgen hm
  simp only [generateInvoices] at hgen
  obtain ⟨j, t, ht, hft⟩ := genLoop_mem hgen hm
  cases hu : unitsById d.units t.unitId with
  | none => simp [invoiceFor, hu] at hft
  | some u =>
    simp only [invoiceFor, hu] at hft
    injection hft with hft
    subst hft
    have hid : u.id = t.unitId := by
      have := List.find?_some hu
      simpa using this
    refine ⟨rfl, u, ?_, ?_, rfl⟩
    · simpa [hid] using hu
    · by_cases hs : scope = Scope.yearly <;> simp [hs]

/-- Witness for C5 on the sample generation run. -/
theorem C5_invoice_total_witness :
    c3Invoice.totalBase = c3Invoice.rentBase + c3Invoice.utilitiesBase
    ∧ ∃ u : Unit, unitsById c3Data.units c3Invoice.unitId = some u
        ∧ c3Invoice.rentBase = convertToBase u.rentAmount u.rentCurrency c3Settings
        ∧ c3Invoice.utilitiesBase
            = sumUtilitiesBase c3Data c3Settings u.id ("2024-05".data) Scope.monthly :=
  C5_invoice_total_and_rentBase c3Data c3Settings Scope.monthly ("2024-05".data) []
    c3NewId [c3Invoice] c3Invoice
    (by simpa [c3NewId, c3Invoice] using C3_monthly_generation_concrete c3NewId)
    (by simp)

/-- C6: deleting a unit from local state removes the unit and every tenant,
utility charge, invoice and payment whose `unitId` references it, and keeps
every other record of the five collections (and the settings). -/
theorem C6_removeUnit_cascade :
    ∀ (d : AppData) (i : Str),
      (∀ u : Unit, u ∈ (removeUnit d i).units ↔ u ∈ d.units ∧ u.id ≠ i)
      ∧ (∀ t : Tenant, t ∈ (removeUnit d i).tenants ↔ t ∈ d.tenants ∧ t.unitId ≠ i)
      ∧ (∀ c : UtilityCharge, c ∈ (removeUnit d i).utilities ↔ c ∈ d.utilities ∧ c.unitId ≠ i)
      ∧ (∀ v : Invoice, v ∈ (removeUnit d i).invoices ↔ v ∈ d.invoices ∧ v.unitId ≠ i)
      ∧ (∀ p : Payment, p ∈ (removeUnit d i).payments ↔ p ∈ d.payments ∧ p.unitId ≠ i)
      ∧ (removeUnit d i).settings = d.settings := by
  intro d i
  refine ⟨fun u => ?_, fun t => ?_, fun c => ?_, fun v => ?_, fun p => ?_, rfl⟩ <;>
    simp [removeUnit, List.mem_filter]

/-- C8: the auto-refresh gate opens exactly when no timestamp is persisted
or more than 24 hours have elapsed; with a persisted timestamp at most
24 hours old no fetch occurs; and after a fetch at `t0` stored the
timestamp `t0`, a re-run within the same 24-hour window does not fetch
again. -/
theorem C8_rate_refresh_gate :
    (∀ last now : ℤ, shouldAutoFetch last now = true ↔ (last = 0 ∨ dayMs < now - last))
    ∧ (∀ last now : ℤ, last ≠ 0 → now - last ≤ dayMs → shouldAutoFetch last now = false)
    ∧ (∀ last0 t0 t1 : ℤ, 0 < t0 → rateStep last0 t0 = (true, t0) →
        t1 - t0 ≤ dayMs → rateStep t0 t1 = (false, t0)) := by
  refine ⟨?_, ?_, ?_⟩
  · intro last now
    simp [shouldAutoFetch]
  · intro last now h1 h2
    simp [shouldAutoFetch, h1]
    omega
  · intro last0 t0 t1 h0 hstep h24
    have hfalse : shouldAutoFetch t0 t1 = false := by
      simp [shouldAutoFetch]
      exact ⟨by omega, by omega⟩
    simp [rateStep, hfalse]

/-- Witness for C8: with the timestamp 1000 persisted and the clock exactly
24 hours later, no fetch occurs. -/
theorem C8_rate_refresh_witness :
    shouldAutoFetch 1000 86401000 = false :=
  C8_rate_refresh_gate.2.1 1000 86401000 (by decide) (by decide)

/-- C9: every write operation of the persistence gateway attempted without
an established authenticated identity fails with the authorization error;
a failing run returns no `RemoteWrite`, so no remote write is issued. -/
theorem C9_write_requires_identity :
    ∀ (s : SettingsRow) (nowIso : Str) (u : UnitRow) (t : TenantRow)
      (ut : UtilityRow) (iv : InvoiceRow) (p : PaymentRow) (i : Str) (b : Bool),
      dbUpsertSettings none s nowIso = Except.error authErrorMsg
      ∧ dbInsertUnit none u = Except.error authErrorMsg
      ∧ dbDeleteUnit none i = Except.error authErrorMsg
      ∧ dbInsertTenant none t = Except.error authErrorMsg
      ∧ dbToggleTenantActive none i b = Except.error authErrorMsg
      ∧ dbDeleteTenant none i = Except.error authErrorMsg
      ∧ dbInsertUtility none ut = Except.error authErrorMsg
      ∧ dbDeleteUtility none i = Except.error authErrorMsg
      ∧ dbInsertInvoice none iv = Except.error authErrorMsg
      ∧ dbDeleteInvoice none i = Except.error authErrorMsg
      ∧ dbInsertPayment none p = Except.error authErrorMsg
      ∧ dbDeletePayment none i = Except.error authErrorMsg := by
  intro s nowIso u t ut iv p i b
  exact ⟨rfl, rfl, rfl, rfl, rfl, rfl, rfl, rfl, rfl, rfl, rfl, rfl⟩

/-- C10: every tenant selected as eligible has a `unitId` that resolves in
the current units collection, so the per-tenant unit lookup of invoice
generation never fails and generation always succeeds. -/
theorem C10_eligible_lookup_safe :
    ∀ (d : AppData) (scope : Scope) (tenantFilter : Str),
      (∀ t : Tenant, t ∈ eligibleTenants d scope tenantFilter →
        (unitsById d.units t.unitId).isSome = true)
      ∧ ∀ (settings : Settings) (period : Str) (newId : Nat → Str),
          (generateInvoices d settings scope period tenantFilter newId).isSome = true := by
  intro d scope tf
  have hkey : ∀ t : Tenant, t ∈ eligibleTenants d scope tf →
      (unitsById d.units t.unitId).isSome = true := by
    intro t ht
    simp only [eligibleTenants] at ht
    have hp : (match unitsById d.units t.unitId with
        | none => false
        | some unit =>
          if scope = Scope.monthly ∧ unit.kind ≠ UnitKind.apartment then false
          else if scope = Scope.yearly ∧ unit.kind ≠ UnitKind.shop then false
          else true) = true := by
      by_cases htf : tf ≠ []
      · rw [if_pos htf] at ht
        exact (List.mem_filter.mp (List.mem_filter.mp ht).1).2
      · rw [if_neg htf] at ht
        exact (List.mem_filter.mp ht).2
    cases hu : unitsById d.units t.unitId with
    | none => rw [hu] at hp; simp at hp
    | some u => simp
  refine ⟨hkey, ?_⟩
  intro settings period newId
  unfold generateInvoices
  apply genLoop_isSome
  intro j t ht
  have hsome := hkey t ht
  cases hu : unitsById d.units t.unitId with
  | none => rw [hu] at hsome; simp at hsome
  | some u => simp [invoiceFor, hu]

/-- Witness for C10: the sample tenant is eligible and its unit lookup
succeeds. -/
theorem C10_eligible_lookup_witness :
    (unitsById c3Data.units c3Tenant.unitId).isSome = true :=
  (C10_eligible_lookup_safe c3Data Scope.monthly []).1 c3Tenant (by decide)

/-- Witness for C7 (amended) at `x = 100`, `r = 5`, `A = ILS`, `B = JOD`. -/
theorem C7_round_trip_witness :
    convertToBase (convertToBase 100 Currency.ILS ⟨Currency.JOD, 5⟩)
        Currency.JOD ⟨Currency.ILS, 5⟩ = 100 :=
  C7_round_trip_opposite_bases 100 5 Currency.ILS Currency.JOD (by decide)

end ZainCenter
